import Mathlib

/-!
Verification development for the whole_body_control messaging core.
The definitions shallowly embed the C++ sources:
  - wbcnet/wbcnet/imp/TCPNetConfig.cpp  (TCP channel factory)
  - the UserProcess console (UserProcess.cpp)
  - wbc_opspace/opspace/src/Parameter.cpp (typed parameter reflection)
Stateful code is embedded as explicit state passing; side effects on the
transport are recorded as traces of operations, so that termination and
"no network traffic" properties become statements about those traces.
-/

namespace wbcnet

/-- Process roles (wbcnet::NetConfig::process_t). SERVO, MODEL and USER are the
roles handled by the switch in get_tcp_port; DISTANCE and MOTOR appear there as
commented-out cases of the same enumeration and fall through to the final
invalid-combination error. -/
inductive process_t where
  | SERVO
  | MODEL
  | USER
  | DISTANCE
  | MOTOR
deriving DecidableEq

/-- Communication status codes (wbcnet::com_status).  Modelled from the spec:
SockWrap.hpp is not under src/; the values used by TCPNetConfig.cpp are COM_OK
and COM_TRY_AGAIN plus COM_OTHER_ERROR, and the error taxonomy of the spec implies
further distinct failure codes, embedded here as the remaining constructors. -/
inductive com_status where
  | COM_OK
  | COM_TRY_AGAIN
  | COM_OTHER_ERROR
  | COM_NOT_OPEN
  | COM_NOT_CONNECTED
  | COM_TIMEOUT
deriving DecidableEq

/-- Socket-level operations performed by the channel factory, recorded as a
trace.  A sleep entry carries its duration in microseconds (usleep). -/
inductive SockOp where
  | sockOpen (port : Nat) (nonblocking : Bool)
  | bindListen (backlog : Nat)
  | accept
  | connect
  | sleep (usec : Nat)
deriving DecidableEq

/-- Static port table (TCPNetConfig.cpp, get_tcp_port): switch on from_process,
with Except.error standing for the thrown runtime_error. -/
def get_tcp_port : process_t → process_t → Except String Nat
  | .SERVO, .MODEL => .ok 9999
  | .SERVO, .USER => .ok 8888
  | .SERVO, _ => .error "get_tcp_port(SERVO, to): invalid to_process"
  | .MODEL, .SERVO => .ok 9999
  | .MODEL, _ => .error "get_tcp_port(MODEL, to): invalid to_process"
  | .USER, .SERVO => .ok 8888
  | .USER, _ => .error "get_tcp_port(USER, to): invalid to_process"
  | _, _ => .error "get_tcp_port(from, to): invalid from_process / to_process combination"

/-- Outcome of a CreateChannel run: a thrown runtime_error (setupError), a run
still inside the accept/connect polling loop after the supplied status trace is
exhausted (waiting), or a ready channel. -/
inductive RunOutcome where
  | setupError (msg : String)
  | waiting
  | channel
deriving DecidableEq

/-- Environment of one TCPServerNetConfig::CreateChannel run: whether Open and
BindListen succeed, and the successive com_status values returned by the
repeated sos->Accept() calls. -/
structure ServerEnv where
  openOk : Bool
  bindListenOk : Bool
  acceptResults : List com_status
deriving DecidableEq

/-- Environment of one TCPClientNetConfig::CreateChannel run: whether Open
succeeds, and the successive com_status values returned by soc->Connect(). -/
structure ClientEnv where
  openOk : Bool
  connectResults : List com_status
deriving DecidableEq

/-- Final status of the server accept loop `while (COM_TRY_AGAIN == cs)`:
the first Accept() result that is not COM_TRY_AGAIN, or none when every
supplied result was COM_TRY_AGAIN, i.e. the loop is still running. -/
def acceptSteps : List com_status → Option com_status
  | [] => none
  | c :: rest => if c = com_status.COM_TRY_AGAIN then acceptSteps rest else some c

/-- Socket operations performed by the server accept loop: one Accept per
status consumed, with a fixed usleep(250000) between consecutive attempts. -/
def acceptOps : List com_status → List SockOp
  | [] => []
  | c :: rest =>
    if c = com_status.COM_TRY_AGAIN then
      SockOp.accept :: SockOp.sleep 250000 :: acceptOps rest
    else [SockOp.accept]

/-- TCPServerNetConfig::CreateChannel: look up the port, Open, BindListen(1),
then poll Accept() until it returns something other than COM_TRY_AGAIN;
COM_OK yields the channel, anything else throws. -/
def serverCreateChannel (fp tp : process_t) (env : ServerEnv) :
    List SockOp × RunOutcome :=
  match get_tcp_port fp tp with
  | .error e => ([], .setupError e)
  | .ok port =>
    if env.openOk = false then
      ([SockOp.sockOpen port true], .setupError "TCPServerNetConfig::CreateChannel: Open failed")
    else if env.bindListenOk = false then
      ([SockOp.sockOpen port true, SockOp.bindListen 1],
       .setupError "TCPServerNetConfig::CreateChannel: BindListen failed")
    else
      let ops := SockOp.sockOpen port true :: SockOp.bindListen 1 :: acceptOps env.acceptResults
      match acceptSteps env.acceptResults with
      | none => (ops, .waiting)
      | some c =>
        if c = com_status.COM_OK then (ops, .channel)
        else (ops, .setupError "TCPServerNetConfig::CreateChannel: Accept failed")

/-- The client retry condition `(COM_TRY_AGAIN == cs) || (COM_OTHER_ERROR == cs)`
of TCPClientNetConfig::CreateChannel. -/
def clientRetry (c : com_status) : Bool :=
  c = com_status.COM_TRY_AGAIN || c = com_status.COM_OTHER_ERROR

/-- Final status of the client connect loop: the first Connect() result that
does not satisfy clientRetry, or none when the loop is still running. -/
def connectSteps : List com_status → Option com_status
  | [] => none
  | c :: rest => if clientRetry c then connectSteps rest else some c

/-- Socket operations performed by the client connect loop: one Connect per
status consumed, with a fixed usleep(250000) between consecutive attempts. -/
def connectOps : List com_status → List SockOp
  | [] => []
  | c :: rest =>
    if clientRetry c then SockOp.connect :: SockOp.sleep 250000 :: connectOps rest
    else [SockOp.connect]

/-- TCPClientNetConfig::CreateChannel: look up the port, Open, then poll
Connect() while it returns COM_TRY_AGAIN or COM_OTHER_ERROR; COM_OK yields the
channel, anything else throws. -/
def clientCreateChannel (fp tp : process_t) (env : ClientEnv) :
    List SockOp × RunOutcome :=
  match get_tcp_port fp tp with
  | .error e => ([], .setupError e)
  | .ok port =>
    if env.openOk = false then
      ([SockOp.sockOpen port true], .setupError "TCPClientNetConfig::CreateChannel: Open failed")
    else
      let ops := SockOp.sockOpen port true :: connectOps env.connectResults
      match connectSteps env.connectResults with
      | none => (ops, .waiting)
      | some c =>
        if c = com_status.COM_OK then (ops, .channel)
        else (ops, .setupError "TCPClientNetConfig::CreateChannel: Connect failed")

/-- Conditions a connect attempt can meet on the wire. -/
inductive ConnectCondition where
  | succeeded
  | notYetAvailable
  | refused
  | notOpen
deriving DecidableEq

/-- Modelled from the spec: the mapping from connect conditions to com_status
implemented by SoClient::Connect (SockWrap.cpp is not under src/).  The spec
states that a connection-refused condition is treated identically to the peer
not yet being available while other errors abort immediately; refused maps to
COM_OTHER_ERROR, not-yet-available to COM_TRY_AGAIN, and a non-transient
failure such as an unopened socket to a distinct status. -/
def connectStatus : ConnectCondition → com_status
  | .succeeded => .COM_OK
  | .notYetAvailable => .COM_TRY_AGAIN
  | .refused => .COM_OTHER_ERROR
  | .notOpen => .COM_NOT_OPEN

end wbcnet

namespace wbcrun

/-- Message identifiers used by the user console (message_id.hpp is not under
src/, but UserProcess.cpp names exactly these three). -/
inductive msg_id where
  | USER_REQUEST
  | USER_REPLY
  | TASK_SPEC
deriving DecidableEq

/-- A wbcrun::ServiceMessage as far as the console code touches it: the
requestID, the status/result code list (code with nCodes = code.length) and
the matrix size.  Payload contents received from the network are not modelled,
only sizes and ordering of operations. -/
structure ServiceMessage where
  requestID : Nat
  code : List Int
  matrixRows : Nat
  matrixCols : Nat
deriving DecidableEq

/-- code.SetNElements(n): resize the code list to n elements (zero-filled). -/
def ServiceMessage.SetNElements (m : ServiceMessage) (n : Nat) : ServiceMessage :=
  { m with code := List.replicate n 0 }

/-- matrix.SetSize(rows, cols). -/
def ServiceMessage.SetSize (m : ServiceMessage) (rows cols : Nat) : ServiceMessage :=
  { m with matrixRows := rows, matrixCols := cols }

/-- The TaskSpec message: its requestID and behaviorID are uint8 fields
(Init sets behaviorID to numeric_limits of uint8), so updates wrap mod 256. -/
structure TaskSpec where
  requestID : Nat
  behaviorID : Nat
deriving DecidableEq

/-- UserProcess state touched by the embedded operations: the three reusable
message buffers and the lazily fetched behavior-name cache. -/
structure UserState where
  user_request : ServiceMessage
  user_reply : ServiceMessage
  task_spec : TaskSpec
  lazy_behavior_list : List String
deriving DecidableEq

/-- Operations the console performs on its single user channel (and the two
reply-clearing steps of the service transaction), recorded in order. -/
inductive Action where
  | enqueue (id : msg_id)
  | sendWait (timeoutMs : Nat)
  | receiveWait (timeoutMs : Nat) (minMessages : Nat)
  | setReplyCodesSize (n : Nat)
  | setReplyMatrixSize (rows cols : Nat)
deriving DecidableEq

/-- Channel operations are the enqueue/send/receive entries; the reply-state
clearing steps are local. -/
def isChannelOp : Action → Bool
  | .enqueue _ => true
  | .sendWait _ => true
  | .receiveWait _ _ => true
  | _ => false

/-- Process::EnqueueMessage on the user channel, as a trace. -/
def EnqueueMessage (id : msg_id) : List Action := [Action.enqueue id]

/-- Process::SendWait with its millisecond timeout, as a trace. -/
def SendWait (timeoutMs : Nat) : List Action := [Action.sendWait timeoutMs]

/-- Process::ReceiveWait with millisecond timeout and minimum message count. -/
def ReceiveWait (timeoutMs minMessages : Nat) : List Action :=
  [Action.receiveWait timeoutMs minMessages]

/-- MyServiceTransaction::SendWaitReceive (UserProcess.cpp): enqueue the
request, SendWait(10000), clear the reply accumulation state
(code.SetNElements(0) and matrix.SetSize(0,0)), then ReceiveWait(10000, 1).
The reply contents received during ReceiveWait are not modelled. -/
def MyServiceTransaction.SendWaitReceive (st : UserState) : UserState × List Action :=
  ({ st with user_reply := (st.user_reply.SetNElements 0).SetSize 0 0 },
   EnqueueMessage msg_id.USER_REQUEST ++ SendWait 10000
     ++ [Action.setReplyCodesSize 0, Action.setReplyMatrixSize 0 0]
     ++ ReceiveWait 10000 1)

/-- Result codes of the console service protocol (wbcrun::srv::result_t).
Modelled from the spec: the header is not under src/; UserProcess.cpp only
distinguishes SUCCESS from any failure. -/
inductive result_t where
  | SUCCESS
  | OTHER_ERROR
deriving DecidableEq

/-- What the servo side would answer to one ListBehaviors request: the result
code and, on success, the behavior names. -/
structure DirectoryOracle where
  stat : result_t
  listing : List String
deriving DecidableEq

/-- Modelled from the spec: DirectoryCmdClient::ListBehaviors (not under src/)
performs one ServiceTransaction round trip via SendWaitReceive and, on a
SUCCESS reply, stores the received behavior names into the listing passed by
reference (here the lazy_behavior_list field); it returns the result code. -/
def DirectoryCmdClient.ListBehaviors (st : UserState) (o : DirectoryOracle) :
    UserState × List Action × result_t :=
  let r := MyServiceTransaction.SendWaitReceive st
  (if o.stat = result_t.SUCCESS then { r.1 with lazy_behavior_list := o.listing } else r.1,
   r.2, o.stat)

/-- UserProcess::GetBehaviorList: fetch through ListBehaviors only when the
cached listing is empty, raising runtime_error (Except.error) when the fetch
fails; otherwise return the cache with no network activity.  The second
component is the trace of channel operations the call performed. -/
def UserProcess.GetBehaviorList (st : UserState) (o : DirectoryOracle) :
    UserState × List Action × Except String (List String) :=
  if st.lazy_behavior_list.isEmpty then
    let r := DirectoryCmdClient.ListBehaviors st o
    if r.2.2 = result_t.SUCCESS then (r.1, r.2.1, Except.ok r.1.lazy_behavior_list)
    else (r.1, r.2.1, Except.error "GetBehaviorList: ListBehaviors failed")
  else (st, [], Except.ok st.lazy_behavior_list)

/-- Result of the (n+1)-th consecutive GetBehaviorList call against the same
oracle, each call starting from the state the previous call left behind. -/
def UserProcess.GetBehaviorListIter (st : UserState) (o : DirectoryOracle) :
    Nat → UserState × List Action × Except String (List String)
  | 0 => UserProcess.GetBehaviorList st o
  | n + 1 => UserProcess.GetBehaviorList (UserProcess.GetBehaviorListIter st o n).1 o

/-- A round trip ends in exactly one ReceiveWait, so counting receiveWait
entries counts network round trips in a trace. -/
def countRoundTrips (tr : List Action) : Nat :=
  (tr.filter fun a => match a with | .receiveWait _ _ => true | _ => false).length

/-- Log entries emitted by UserProcess::HandleMessagePayload (all at trace
level in the source). -/
inductive LogEntry where
  | unknownMsgId (id : msg_id)
  | requestIDMismatch (expected got : Nat)
  | noStatusInfo
  | replyStatus (statusCode : Int)
deriving DecidableEq

/-- The status log of HandleMessagePayload: reports no-status-info when
1 < nCodes, otherwise reports code[0] (0 when the code list is empty, matching
an unchecked element access). -/
def statusLog (st : UserState) : List LogEntry :=
  if 1 < st.user_reply.code.length then [LogEntry.noStatusInfo]
  else [LogEntry.replyStatus (st.user_reply.code.headD 0)]

/-- UserProcess::HandleMessagePayload: returns the handler result code, the
trace-level log entries (emitted only when trace logging is enabled), and
whether the reply was dumped to the console (which happens iff ncurses is not
active and the message answers a keyboard query). -/
def UserProcess.HandleMessagePayload (st : UserState) (msgId : msg_id)
    (traceEnabled ncursesActive keyboardQuery : Bool) : Int × List LogEntry × Bool :=
  if msgId ≠ msg_id.USER_REPLY then
    (0, (if traceEnabled then [LogEntry.unknownMsgId msgId] else []), false)
  else
    (0,
     (if traceEnabled then
        (if st.user_request.requestID ≠ st.user_reply.requestID then
          [LogEntry.requestIDMismatch st.user_request.requestID st.user_reply.requestID]
         else [])
        ++ statusLog st
      else []),
     (!ncursesActive && keyboardQuery))

/-- One parsed console input line: the first token, plus the results of the
stream extractions the individual branches perform (none = extraction failed).
goInput models the six values entered interactively for the go command (none =
end of input, after which InteractiveGoalRequest returns without filling the
request); keys models the key codes pressed in interactive-key-press mode
before q. -/
structure ConsoleInput where
  tok : String
  intArg : Option Int
  goInput : Option (List Rat)
  setgoalArg : Option (List Rat)
  setgainsArg : Option (List Rat)
  keys : List Nat
deriving DecidableEq

/-- Console diagnostics printed by Step, by category. -/
inductive ConsoleMsg where
  | syntaxFirstToken
  | behaviorListShown (names : List String)
  | syntaxBehaviorNumber
  | errorNegativeBehavior (bnum : Int)
  | errorBehaviorTooLarge (bnum maxIdx : Int)
  | alreadyRunning (bnum : Int)
  | syntaxGoal
  | syntaxGains
  | unknownCommand (tok : String)
  | exceptionCaught (msg : String)
  | keyLoopEntered
  | xmlrpcLoopEntered
deriving DecidableEq

/-- Result of one UserProcess::Step call: the new state, the channel
operations performed, the console diagnostics, and the boolean return value. -/
structure StepResult where
  state : UserState
  acts : List Action
  console : List ConsoleMsg
  ret : Bool
deriving DecidableEq

/-- The request kinds the console marshals (wbcrun::srv helpers). -/
inductive ReqKind where
  | getPos
  | getEndPos
  | getVel
  | getTorques
  | setGoal
  | floatCmd
  | activateCmd
  | toggleRecorder
  | keyPress
  | setGains
deriving DecidableEq

/-- Distinct codes standing for the request kinds. -/
def reqCode : ReqKind → Int
  | .getPos => 1
  | .getEndPos => 2
  | .getVel => 3
  | .getTorques => 4
  | .setGoal => 5
  | .floatCmd => 6
  | .activateCmd => 7
  | .toggleRecorder => 8
  | .keyPress => 9
  | .setGains => 10

/-- Modelled from the spec: the wbcrun::srv request-marshalling helpers
(get_pos, get_vel, set_goal, set_gains, ...; not under src/) each fill
m_user_request with the one typed request for the given command, identified
here by a distinct code. -/
def srvFill (m : ServiceMessage) (k : ReqKind) : ServiceMessage :=
  { m with code := [reqCode k] }

/-- The four-line pattern shared verbatim by the simple console commands:
marshal the request into m_user_request, EnqueueMessage, SendWait(10000),
ReceiveWait(10000, 1). -/
def simpleRequest (st : UserState) (k : ReqKind) : StepResult :=
  { state := { st with user_request := srvFill st.user_request k },
    acts := EnqueueMessage msg_id.USER_REQUEST ++ SendWait 10000 ++ ReceiveWait 10000 1,
    console := [],
    ret := true }

/-- Channel operations of InteractiveKeyPressLoop: for every key pressed
before q, one key_press request is enqueued, sent and answered. -/
def keyLoopActs : List Nat → List Action
  | [] => []
  | _ :: rest =>
    (EnqueueMessage msg_id.USER_REQUEST ++ SendWait 10000 ++ ReceiveWait 10000 1)
      ++ keyLoopActs rest

/-- State evolution of InteractiveKeyPressLoop: each key overwrites
m_user_request with a key_press request. -/
def keyLoopState (st : UserState) : List Nat → UserState
  | [] => st
  | _ :: rest => keyLoopState { st with user_request := srvFill st.user_request ReqKind.keyPress } rest

/-- The first tokens UserProcess::Step recognizes, in source order. -/
def recognizedTokens : List String :=
  ["pos", "endpos", "vel", "tau", "go", "float", "activate", "b?", "b", "B",
   "setgoal", "r", "k", "xmlrpc", "setgains"]

/-- UserProcess::Step: dispatch on the first token of the console line.  An
empty token models the failed extraction of the first token.  The b and B
branches call GetBehaviorList (which may fetch over the network) before the
range check; a thrown runtime_error is caught by the surrounding try block,
printed, and makes Step return false.  The r branch reproduces the source
faithfully: it marshals toggle_recorder but performs SendWait/ReceiveWait
without enqueueing anything.  The xmlrpc branch spawns the auxiliary RPC
server and performs no servo-channel operation itself. -/
def UserProcess.Step (st : UserState) (o : DirectoryOracle) (inp : ConsoleInput) : StepResult :=
  if inp.tok = "" then
    { state := st, acts := [], console := [ConsoleMsg.syntaxFirstToken], ret := true }
  else if inp.tok = "pos" then simpleRequest st ReqKind.getPos
  else if inp.tok = "endpos" then simpleRequest st ReqKind.getEndPos
  else if inp.tok = "vel" then simpleRequest st ReqKind.getVel
  else if inp.tok = "tau" then simpleRequest st ReqKind.getTorques
  else if inp.tok = "go" then
    let st2 := match inp.goInput with
      | none => st
      | some _ => { st with user_request := srvFill st.user_request ReqKind.setGoal }
    { state := st2,
      acts := EnqueueMessage msg_id.USER_REQUEST ++ SendWait 10000 ++ ReceiveWait 10000 1,
      console := [], ret := true }
  else if inp.tok = "float" then simpleRequest st ReqKind.floatCmd
  else if inp.tok = "activate" then simpleRequest st ReqKind.activateCmd
  else if inp.tok = "b?" then
    let r := UserProcess.GetBehaviorList st o
    match r.2.2 with
    | .ok names => { state := r.1, acts := r.2.1, console := [ConsoleMsg.behaviorListShown names], ret := true }
    | .error e => { state := r.1, acts := r.2.1, console := [ConsoleMsg.exceptionCaught e], ret := false }
  else if inp.tok = "b" || inp.tok = "B" then
    match inp.intArg with
    | none => { state := st, acts := [], console := [ConsoleMsg.syntaxBehaviorNumber], ret := true }
    | some bnum =>
      if bnum < 0 then
        { state := st, acts := [], console := [ConsoleMsg.errorNegativeBehavior bnum], ret := true }
      else
        let r := UserProcess.GetBehaviorList st o
        match r.2.2 with
        | .error e => { state := r.1, acts := r.2.1, console := [ConsoleMsg.exceptionCaught e], ret := false }
        | .ok names =>
          let nbehaviors : Int := names.length
          if nbehaviors ≤ bnum then
            { state := r.1, acts := r.2.1,
              console := [ConsoleMsg.errorBehaviorTooLarge bnum (nbehaviors - 1)], ret := true }
          else if inp.tok = "b" && bnum = (r.1.task_spec.behaviorID : Int) then
            { state := r.1, acts := r.2.1, console := [ConsoleMsg.alreadyRunning bnum], ret := true }
          else
            { state := { r.1 with task_spec :=
                { requestID := (r.1.task_spec.requestID + 1) % 256,
                  behaviorID := bnum.toNat % 256 } },
              acts := r.2.1 ++ EnqueueMessage msg_id.TASK_SPEC ++ SendWait 10000,
              console := [], ret := true }
  else if inp.tok = "setgoal" then
    match inp.setgoalArg with
    | none => { state := st, acts := [], console := [ConsoleMsg.syntaxGoal], ret := true }
    | some _ => simpleRequest st ReqKind.setGoal
  else if inp.tok = "r" then
    { state := { st with user_request := srvFill st.user_request ReqKind.toggleRecorder },
      acts := SendWait 10000 ++ ReceiveWait 10000 1,
      console := [], ret := true }
  else if inp.tok = "k" then
    { state := keyLoopState st inp.keys, acts := keyLoopActs inp.keys,
      console := [ConsoleMsg.keyLoopEntered], ret := true }
  else if inp.tok = "xmlrpc" then
    { state := st, acts := [], console := [ConsoleMsg.xmlrpcLoopEntered], ret := true }
  else if inp.tok = "setgains" then
    match inp.setgainsArg with
    | none => { state := st, acts := [], console := [ConsoleMsg.syntaxGains], ret := true }
    | some _ => simpleRequest st ReqKind.setGains
  else
    { state := st, acts := [], console := [ConsoleMsg.unknownCommand inp.tok], ret := true }

/-- Number of messages enqueued in a trace. -/
def countEnqueues (tr : List Action) : Nat :=
  (tr.filter fun a => match a with | .enqueue _ => true | _ => false).length

/-- Number of messages of one given id enqueued in a trace. -/
def countEnqueuesOf (id : msg_id) (tr : List Action) : Nat :=
  (tr.filter fun a => a = Action.enqueue id).length

end wbcrun

namespace opspace

/-- opspace::parameter_type_t. -/
inductive parameter_type_t where
  | PARAMETER_TYPE_VOID
  | PARAMETER_TYPE_INTEGER
  | PARAMETER_TYPE_STRING
  | PARAMETER_TYPE_REAL
  | PARAMETER_TYPE_VECTOR
  | PARAMETER_TYPE_MATRIX
deriving DecidableEq

/-- A value one of the typed set overloads can receive.  C++ doubles carry no
arithmetic in Parameter.cpp (values are only stored and handed to checkers),
so reals are embedded as rationals. -/
inductive PVal where
  | vInt (i : Int)
  | vStr (s : String)
  | vReal (r : Rat)
  | vVec (v : List Rat)
  | vMat (m : List (List Rat))
deriving DecidableEq

/-- The static overload a value selects: set(int) pairs with INTEGER
parameters, and so on.  No value selects the VOID overload set. -/
def PVal.ptype : PVal → parameter_type_t
  | .vInt _ => .PARAMETER_TYPE_INTEGER
  | .vStr _ => .PARAMETER_TYPE_STRING
  | .vReal _ => .PARAMETER_TYPE_REAL
  | .vVec _ => .PARAMETER_TYPE_VECTOR
  | .vMat _ => .PARAMETER_TYPE_MATRIX

/-- jspace::Status as carried across every service-style call: ok flag and
explanation.  The default-constructed Status is ok with an empty message, as
the success paths of the typed set overloads rely on. -/
structure Status where
  ok : Bool
  errstr : String
deriving DecidableEq

/-- The default-constructed (success) Status. -/
def okStatus : Status := { ok := true, errstr := "" }

/-- One typed parameter: its name, declared type, and the storage the typed
pointer (integer_, string_, ...) refers to.  The checker_ pointer is a
function passed separately to set, since the registered checker is an object
reference; the storage of a VOID parameter is never reachable by any overload. -/
structure Parameter where
  name_ : String
  type_ : parameter_type_t
  value : PVal
deriving DecidableEq

/-- The checker verdict the derived set overloads consult:
checker_->check(stored, value) when a checker is registered, and the
default-constructed ok Status when checker_ is null. -/
def checkerVerdict (p : Parameter) (checker : Option (PVal → PVal → Status))
    (v : PVal) : Status :=
  match checker with
  | some check => check p.value v
  | none => okStatus

/-- Parameter::set with C++ dispatch semantics: a value whose static overload
does not match the dynamic type of the parameter lands in the base-class overload,
which returns Status(false, "type mismatch") and touches nothing; a matching
overload asks the checker first, returns its verdict unchanged when it
rejects, and stores the value and returns the (ok) verdict when it accepts. -/
def Parameter.set (p : Parameter) (checker : Option (PVal → PVal → Status))
    (v : PVal) : Parameter × Status :=
  if v.ptype ≠ p.type_ then
    (p, { ok := false, errstr := "type mismatch" })
  else
    let st := checkerVerdict p checker v
    if st.ok then ({ p with value := v }, st) else (p, st)

/-- The parameter registry of a ParameterReflection: parameter_lookup_t is a
std::map from names to parameter instances, embedded as an association list
with unique keys. -/
abbrev parameter_lookup_t := List (String × Parameter)

/-- ParameterReflection::lookupParameter (untyped variant): map::find. -/
def ParameterReflection.lookupParameter (reg : parameter_lookup_t) (name : String) :
    Option Parameter :=
  match reg.find? (fun e => e.1 = name) with
  | none => none
  | some e => some e.2

/-- ParameterReflection::declareParameter: construct the new typed parameter
entry, then parameter_lookup_.insert(make_pair(name, entry)) — std::map insert
adds the pair only when the key is absent — and return the freshly built entry
regardless of whether the insertion took place. -/
def ParameterReflection.declareParameter (reg : parameter_lookup_t) (name : String)
    (t : parameter_type_t) (store : PVal) : parameter_lookup_t × Parameter :=
  let entry : Parameter := { name_ := name, type_ := t, value := store }
  ((if (reg.find? (fun e => e.1 = name)).isSome then reg else reg ++ [(name, entry)]),
   entry)

end opspace

/-! Concrete sample states used to instantiate theorems with hypotheses. -/

/-- A user process right after Init: empty caches, task spec at its initial
requestID 0 and behaviorID 255 (numeric_limits of uint8). -/
def initialUserState : wbcrun.UserState :=
  { user_request := { requestID := 0, code := [], matrixRows := 0, matrixCols := 0 },
    user_reply := { requestID := 0, code := [], matrixRows := 0, matrixCols := 0 },
    task_spec := { requestID := 0, behaviorID := 255 },
    lazy_behavior_list := [] }

/-- The same process after the behavior list has been fetched and cached. -/
def cachedUserState : wbcrun.UserState :=
  { initialUserState with lazy_behavior_list := ["behavior0", "behavior1"] }

/-- A servo side exposing two behaviors. -/
def twoBehaviorOracle : wbcrun.DirectoryOracle :=
  { stat := wbcrun.result_t.SUCCESS, listing := ["behavior0", "behavior1"] }

/-- The console line `b 3`. -/
def b3Input : wbcrun.ConsoleInput :=
  { tok := "b", intArg := some 3, goInput := none, setgoalArg := none,
    setgainsArg := none, keys := [] }

/-- The console line `r`. -/
def rInput : wbcrun.ConsoleInput :=
  { tok := "r", intArg := none, goInput := none, setgoalArg := none,
    setgainsArg := none, keys := [] }

/-- The console line `pos`. -/
def posInput : wbcrun.ConsoleInput :=
  { tok := "pos", intArg := none, goInput := none, setgoalArg := none,
    setgainsArg := none, keys := [] }

/-- A user process whose outstanding request has id 3 while the received reply
echoes id 7. -/
def mismatchUserState : wbcrun.UserState :=
  { initialUserState with
    user_request := { requestID := 3, code := [0], matrixRows := 0, matrixCols := 0 },
    user_reply := { requestID := 7, code := [0], matrixRows := 0, matrixCols := 0 } }

/-- An integer parameter named kp holding 3. -/
def kpParameter : opspace.Parameter :=
  { name_ := "kp", type_ := opspace.parameter_type_t.PARAMETER_TYPE_INTEGER,
    value := opspace.PVal.vInt 3 }

/-- A checker that rejects every proposed value. -/
def rejectAllChecker : opspace.PVal → opspace.PVal → opspace.Status :=
  fun _ _ => { ok := false, errstr := "rejected" }

/-! Theorems.  Each claim theorem is stated over the embedded definitions
above; helper lemmas come first. -/

/-- The server accept loop is still running after any number of consecutive
COM_TRY_AGAIN results. -/
theorem acceptSteps_replicate_tryAgain (n : Nat) :
    wbcnet.acceptSteps (List.replicate n wbcnet.com_status.COM_TRY_AGAIN) = none := by
  induction n with
  | zero => rfl
  | succ k ih => simpa [List.replicate, wbcnet.acceptSteps] using ih

/-- The accept loop exits with the first status that is not COM_TRY_AGAIN. -/
theorem acceptSteps_replicate_append (n : Nat) (c : wbcnet.com_status)
    (rest : List wbcnet.com_status) (h : c ≠ wbcnet.com_status.COM_TRY_AGAIN) :
    wbcnet.acceptSteps
        (List.replicate n wbcnet.com_status.COM_TRY_AGAIN ++ c :: rest) = some c := by
  induction n with
  | zero => simp [wbcnet.acceptSteps, h]
  | succ k ih => simpa [List.replicate, wbcnet.acceptSteps] using ih

/-- Socket trace of the accept loop: n polls separated by fixed 250 ms sleeps,
then the final poll. -/
theorem acceptOps_replicate_append (n : Nat) (c : wbcnet.com_status)
    (rest : List wbcnet.com_status) (h : c ≠ wbcnet.com_status.COM_TRY_AGAIN) :
    wbcnet.acceptOps (List.replicate n wbcnet.com_status.COM_TRY_AGAIN ++ c :: rest)
      = (List.replicate n [wbcnet.SockOp.accept, wbcnet.SockOp.sleep 250000]).flatten
          ++ [wbcnet.SockOp.accept] := by
  induction n with
  | zero => simp [wbcnet.acceptOps, h]
  | succ k ih => simpa [List.replicate, wbcnet.acceptOps] using ih

/-- C1: the TCP port chosen by createChannel is a pure function of the
(fromRole, toRole) pair — (SERVO, MODEL) and (MODEL, SERVO) map to 9999,
(SERVO, USER) and (USER, SERVO) map to 8888 — and for every unmapped pair both
the server and the client variants fail with a setup error before performing
any socket operation. -/
theorem tcp_port_pure_mapping (fp tp : wbcnet.process_t)
    (senv : wbcnet.ServerEnv) (cenv : wbcnet.ClientEnv) :
    (wbcnet.get_tcp_port fp tp = Except.ok 9999 ↔
      (fp = wbcnet.process_t.SERVO ∧ tp = wbcnet.process_t.MODEL)
      ∨ (fp = wbcnet.process_t.MODEL ∧ tp = wbcnet.process_t.SERVO))
    ∧ (wbcnet.get_tcp_port fp tp = Except.ok 8888 ↔
      (fp = wbcnet.process_t.SERVO ∧ tp = wbcnet.process_t.USER)
      ∨ (fp = wbcnet.process_t.USER ∧ tp = wbcnet.process_t.SERVO))
    ∧ (∀ e, wbcnet.get_tcp_port fp tp = Except.error e →
        wbcnet.serverCreateChannel fp tp senv = ([], wbcnet.RunOutcome.setupError e)
        ∧ wbcnet.clientCreateChannel fp tp cenv = ([], wbcnet.RunOutcome.setupError e)) := by
  cases fp <;> cases tp <;>
    simp [wbcnet.get_tcp_port, wbcnet.serverCreateChannel, wbcnet.clientCreateChannel]

/-- C1 witness: the unmapped pair (MODEL, USER) makes both factory variants
fail fast with the port lookup error and an empty socket trace. -/
theorem tcp_port_pure_mapping_witness :
    wbcnet.serverCreateChannel wbcnet.process_t.MODEL wbcnet.process_t.USER
        { openOk := true, bindListenOk := true, acceptResults := [] }
      = ([], wbcnet.RunOutcome.setupError "get_tcp_port(MODEL, to): invalid to_process")
    ∧ wbcnet.clientCreateChannel wbcnet.process_t.MODEL wbcnet.process_t.USER
        { openOk := true, connectResults := [] }
      = ([], wbcnet.RunOutcome.setupError "get_tcp_port(MODEL, to): invalid to_process") :=
  (tcp_port_pure_mapping wbcnet.process_t.MODEL wbcnet.process_t.USER
    { openOk := true, bindListenOk := true, acceptResults := [] }
    { openOk := true, connectResults := [] }).2.2 _ rfl

/-- C5: the client connect loop treats a refused connection exactly like a
peer that is not yet available (both map into the retried statuses and
produce the same trace step), while any status outside the retried set ends
the loop at once, and if it is not COM_OK the factory raises a setup error
after that single connect attempt, never retrying. -/
theorem tcp_client_connect_retry (rest : List wbcnet.com_status) (c : wbcnet.com_status) :
    (wbcnet.connectOps (wbcnet.connectStatus wbcnet.ConnectCondition.refused :: rest)
        = wbcnet.SockOp.connect :: wbcnet.SockOp.sleep 250000 :: wbcnet.connectOps rest
      ∧ wbcnet.connectSteps (wbcnet.connectStatus wbcnet.ConnectCondition.refused :: rest)
        = wbcnet.connectSteps rest)
    ∧ (wbcnet.connectOps (wbcnet.connectStatus wbcnet.ConnectCondition.notYetAvailable :: rest)
        = wbcnet.SockOp.connect :: wbcnet.SockOp.sleep 250000 :: wbcnet.connectOps rest
      ∧ wbcnet.connectSteps (wbcnet.connectStatus wbcnet.ConnectCondition.notYetAvailable :: rest)
        = wbcnet.connectSteps rest)
    ∧ (wbcnet.clientRetry c = false → c ≠ wbcnet.com_status.COM_OK →
        wbcnet.clientCreateChannel wbcnet.process_t.USER wbcnet.process_t.SERVO
            { openOk := true, connectResults := c :: rest }
          = ([wbcnet.SockOp.sockOpen 8888 true, wbcnet.SockOp.connect],
             wbcnet.RunOutcome.setupError "TCPClientNetConfig::CreateChannel: Connect failed")) := by
  refine ⟨⟨?_, ?_⟩, ⟨?_, ?_⟩, ?_⟩
  · simp [wbcnet.connectOps, wbcnet.connectStatus, wbcnet.clientRetry]
  · simp [wbcnet.connectSteps, wbcnet.connectStatus, wbcnet.clientRetry]
  · simp [wbcnet.connectOps, wbcnet.connectStatus, wbcnet.clientRetry]
  · simp [wbcnet.connectSteps, wbcnet.connectStatus, wbcnet.clientRetry]
  · intro hr hok
    simp [wbcnet.clientCreateChannel, wbcnet.get_tcp_port, wbcnet.connectSteps,
          wbcnet.connectOps, hr, hok]

/-- C5 witness: a first Connect() status outside the retried set (COM_NOT_OPEN)
aborts immediately with the setup error after one connect attempt. -/
theorem tcp_client_connect_retry_witness :
    wbcnet.clientCreateChannel wbcnet.process_t.USER wbcnet.process_t.SERVO
        { openOk := true, connectResults := [wbcnet.com_status.COM_NOT_OPEN] }
      = ([wbcnet.SockOp.sockOpen 8888 true, wbcnet.SockOp.connect],
         wbcnet.RunOutcome.setupError "TCPClientNetConfig::CreateChannel: Connect failed") :=
  (tcp_client_connect_retry [] wbcnet.com_status.COM_NOT_OPEN).2.2 (by decide) (by decide)

/-- C6 counterexample: there is no caller-supplied retry limit after which the
server accept loop has terminated — for every candidate bound N the loop is
still polling after N consecutive COM_TRY_AGAIN results, refuting the claim
that the loop terminates once a limit is exhausted when no peer connects. -/
theorem tcp_server_accept_limit_refuted :
    ¬ ∃ N : Nat, ∀ n : Nat, N ≤ n →
      wbcnet.acceptSteps (List.replicate n wbcnet.com_status.COM_TRY_AGAIN) ≠ none := by
  rintro ⟨N, h⟩
  exact h N le_rfl (acceptSteps_replicate_tryAgain N)

/-- C6 (amended): the server variant binds, listens, and retries accept() with
a fixed 250 ms sleep between polls; the loop has no retry limit — it runs
until accept() returns a status other than COM_TRY_AGAIN (COM_OK yields the
channel, anything else a setup error), and while no peer connects it never
terminates. -/
theorem tcp_server_accept_unbounded_poll (n : Nat) (c : wbcnet.com_status)
    (rest : List wbcnet.com_status) (h : c ≠ wbcnet.com_status.COM_TRY_AGAIN) :
    wbcnet.acceptSteps (List.replicate n wbcnet.com_status.COM_TRY_AGAIN) = none
    ∧ wbcnet.serverCreateChannel wbcnet.process_t.SERVO wbcnet.process_t.USER
        { openOk := true, bindListenOk := true,
          acceptResults := List.replicate n wbcnet.com_status.COM_TRY_AGAIN ++ c :: rest }
      = (wbcnet.SockOp.sockOpen 8888 true :: wbcnet.SockOp.bindListen 1 ::
          ((List.replicate n [wbcnet.SockOp.accept, wbcnet.SockOp.sleep 250000]).flatten
            ++ [wbcnet.SockOp.accept]),
         if c = wbcnet.com_status.COM_OK then wbcnet.RunOutcome.channel
         else wbcnet.RunOutcome.setupError "TCPServerNetConfig::CreateChannel: Accept failed") := by
  refine ⟨acceptSteps_replicate_tryAgain n, ?_⟩
  simp only [wbcnet.serverCreateChannel, wbcnet.get_tcp_port,
    acceptSteps_replicate_append n c rest h, acceptOps_replicate_append n c rest h]
  by_cases hc : c = wbcnet.com_status.COM_OK <;> simp [hc]

/-- C6 witness: one TRY_AGAIN poll followed by a successful accept produces
the channel after exactly one 250 ms sleep. -/
theorem tcp_server_accept_unbounded_poll_witness :
    wbcnet.serverCreateChannel wbcnet.process_t.SERVO wbcnet.process_t.USER
        { openOk := true, bindListenOk := true,
          acceptResults := [wbcnet.com_status.COM_TRY_AGAIN, wbcnet.com_status.COM_OK] }
      = ([wbcnet.SockOp.sockOpen 8888 true, wbcnet.SockOp.bindListen 1,
          wbcnet.SockOp.accept, wbcnet.SockOp.sleep 250000, wbcnet.SockOp.accept],
         wbcnet.RunOutcome.channel) := by
  have h := (tcp_server_accept_unbounded_poll 1 wbcnet.com_status.COM_OK [] (by decide)).2
  simpa using h

/-- C2: MyServiceTransaction::SendWaitReceive performs exactly, in order:
enqueue the request on the user channel, SendWait, clear the reply
accumulation state (code list to 0 elements, matrix to size 0x0), then
ReceiveWait for exactly one reply (minMessages = 1); its channel operations
are exactly that enqueue, that SendWait and that ReceiveWait, while the
request and task-spec buffers are untouched. -/
theorem service_transaction_send_wait_receive (st : wbcrun.UserState) :
    (wbcrun.MyServiceTransaction.SendWaitReceive st).2
      = [wbcrun.Action.enqueue wbcrun.msg_id.USER_REQUEST, wbcrun.Action.sendWait 10000,
         wbcrun.Action.setReplyCodesSize 0, wbcrun.Action.setReplyMatrixSize 0 0,
         wbcrun.Action.receiveWait 10000 1]
    ∧ ((wbcrun.MyServiceTransaction.SendWaitReceive st).2.filter wbcrun.isChannelOp)
      = [wbcrun.Action.enqueue wbcrun.msg_id.USER_REQUEST, wbcrun.Action.sendWait 10000,
         wbcrun.Action.receiveWait 10000 1]
    ∧ (wbcrun.MyServiceTransaction.SendWaitReceive st).1.user_reply.code = []
    ∧ (wbcrun.MyServiceTransaction.SendWaitReceive st).1.user_reply.matrixRows = 0
    ∧ (wbcrun.MyServiceTransaction.SendWaitReceive st).1.user_reply.matrixCols = 0
    ∧ (wbcrun.MyServiceTransaction.SendWaitReceive st).1.user_request = st.user_request
    ∧ (wbcrun.MyServiceTransaction.SendWaitReceive st).1.task_spec = st.task_spec :=
  ⟨rfl, rfl, rfl, rfl, rfl, rfl, rfl⟩

/-- C3: GetBehaviorList performs a ListBehaviors round trip if and only if the
cached listing is empty (one round trip when empty, zero otherwise), and while
the cache is non-empty every repeated call leaves the state untouched and
returns the same cached sequence with an empty channel trace. -/
theorem behavior_list_cache_round_trips (st : wbcrun.UserState)
    (o : wbcrun.DirectoryOracle) (n : Nat) :
    wbcrun.countRoundTrips (wbcrun.UserProcess.GetBehaviorList st o).2.1
      = (if st.lazy_behavior_list.isEmpty then 1 else 0)
    ∧ (st.lazy_behavior_list.isEmpty = false →
        wbcrun.UserProcess.GetBehaviorListIter st o n
          = (st, [], Except.ok st.lazy_behavior_list)) := by
  constructor
  · by_cases h : st.lazy_behavior_list.isEmpty
    · by_cases hs : o.stat = wbcrun.result_t.SUCCESS <;>
        simp [wbcrun.UserProcess.GetBehaviorList, wbcrun.DirectoryCmdClient.ListBehaviors,
          wbcrun.MyServiceTransaction.SendWaitReceive, wbcrun.countRoundTrips, h, hs,
          wbcrun.EnqueueMessage, wbcrun.SendWait, wbcrun.ReceiveWait]
    · simp [wbcrun.UserProcess.GetBehaviorList, wbcrun.countRoundTrips, h]
  · intro h
    induction n with
    | zero =>
      simp [wbcrun.UserProcess.GetBehaviorListIter, wbcrun.UserProcess.GetBehaviorList, h]
    | succ k ih =>
      rw [wbcrun.UserProcess.GetBehaviorListIter, ih]
      simp [wbcrun.UserProcess.GetBehaviorList, h]

/-- C3 witness: with the two-behavior listing cached, three further calls
perform zero round trips and return the cached sequence unchanged. -/
theorem behavior_list_cache_round_trips_witness :
    wbcrun.countRoundTrips
        (wbcrun.UserProcess.GetBehaviorList cachedUserState twoBehaviorOracle).2.1 = 0
    ∧ wbcrun.UserProcess.GetBehaviorListIter cachedUserState twoBehaviorOracle 2
      = (cachedUserState, [], Except.ok ["behavior0", "behavior1"]) := by
  have h := behavior_list_cache_round_trips cachedUserState twoBehaviorOracle 2
  exact ⟨by simpa [cachedUserState, initialUserState] using h.1,
         by simpa [cachedUserState, initialUserState] using h.2 (by decide)⟩

/-- C4: a USER_REPLY whose requestID differs from that of the outstanding request is
not fatal — HandleMessagePayload still returns 0, the reply is still dumped to
the console exactly when ncurses is inactive and a keyboard query is pending,
and the only mismatch-specific effect is one trace-level log entry (emitted
only when trace logging is enabled). -/
theorem user_reply_requestID_mismatch_nonfatal (st : wbcrun.UserState)
    (te na kq : Bool) (h : st.user_request.requestID ≠ st.user_reply.requestID) :
    (wbcrun.UserProcess.HandleMessagePayload st wbcrun.msg_id.USER_REPLY te na kq).1 = 0
    ∧ (wbcrun.UserProcess.HandleMessagePayload st wbcrun.msg_id.USER_REPLY te na kq).2.2
      = (!na && kq)
    ∧ (wbcrun.UserProcess.HandleMessagePayload st wbcrun.msg_id.USER_REPLY te na kq).2.1
      = (if te then
          wbcrun.LogEntry.requestIDMismatch st.user_request.requestID st.user_reply.requestID
            :: wbcrun.statusLog st
         else []) := by
  refine ⟨?_, ?_, ?_⟩ <;> simp [wbcrun.UserProcess.HandleMessagePayload, h]

/-- C4 witness: a reply echoing id 7 against an outstanding request id 3 still
yields handler result 0, is dumped for the keyboard query, and adds only the
mismatch log entry in front of the status log. -/
theorem user_reply_requestID_mismatch_nonfatal_witness :
    (wbcrun.UserProcess.HandleMessagePayload mismatchUserState
        wbcrun.msg_id.USER_REPLY true false true).1 = 0
    ∧ (wbcrun.UserProcess.HandleMessagePayload mismatchUserState
        wbcrun.msg_id.USER_REPLY true false true).2.2 = true
    ∧ (wbcrun.UserProcess.HandleMessagePayload mismatchUserState
        wbcrun.msg_id.USER_REPLY true false true).2.1
      = [wbcrun.LogEntry.requestIDMismatch 3 7, wbcrun.LogEntry.replyStatus 0] := by
  have h := user_reply_requestID_mismatch_nonfatal mismatchUserState true false true (by decide)
  simpa [mismatchUserState, initialUserState, wbcrun.statusLog] using h

/-- C7 counterexample: with an empty behavior-list cache, the console command
`b 3` against a servo exposing two behaviors does print the too-large error
and leaves the task spec untouched, but it is not free of network traffic: the
range check first fetches the behavior list, enqueueing and sending one
USER_REQUEST over the channel. -/
theorem step_b_too_large_counterexample :
    (wbcrun.UserProcess.Step initialUserState twoBehaviorOracle b3Input).console
      = [wbcrun.ConsoleMsg.errorBehaviorTooLarge 3 1]
    ∧ wbcrun.Action.enqueue wbcrun.msg_id.USER_REQUEST
        ∈ (wbcrun.UserProcess.Step initialUserState twoBehaviorOracle b3Input).acts
    ∧ wbcrun.countEnqueues
        (wbcrun.UserProcess.Step initialUserState twoBehaviorOracle b3Input).acts = 1
    ∧ (wbcrun.UserProcess.Step initialUserState twoBehaviorOracle b3Input).state.task_spec
      = initialUserState.task_spec := by
  decide

/-- C7 (amended): for `b <N>` with N at least the number of available
behaviors, Step prints the too-large error, leaves the task-spec requestID and
behaviorID unchanged, and never enqueues or sends the task-spec message; when
the behavior list is already cached no channel operation happens at all, and
when the cache is empty the only network activity is the one lazy
behavior-list fetch. -/
theorem step_b_too_large_amended (st : wbcrun.UserState) (o : wbcrun.DirectoryOracle)
    (inp : wbcrun.ConsoleInput) (bnum : Int)
    (htok : inp.tok = "b") (harg : inp.intArg = some bnum) (hpos : 0 ≤ bnum) :
    ((st.lazy_behavior_list ≠ [] ∧ (st.lazy_behavior_list.length : Int) ≤ bnum) →
      wbcrun.UserProcess.Step st o inp
        = { state := st, acts := [],
            console := [wbcrun.ConsoleMsg.errorBehaviorTooLarge bnum
              ((st.lazy_behavior_list.length : Int) - 1)],
            ret := true })
    ∧ ((st.lazy_behavior_list = [] ∧ o.stat = wbcrun.result_t.SUCCESS
          ∧ (o.listing.length : Int) ≤ bnum) →
        (wbcrun.UserProcess.Step st o inp).state.task_spec = st.task_spec
        ∧ (wbcrun.UserProcess.Step st o inp).acts
          = (wbcrun.MyServiceTransaction.SendWaitReceive st).2
        ∧ wbcrun.countEnqueuesOf wbcrun.msg_id.TASK_SPEC
            (wbcrun.UserProcess.Step st o inp).acts = 0
        ∧ (wbcrun.UserProcess.Step st o inp).console
          = [wbcrun.ConsoleMsg.errorBehaviorTooLarge bnum ((o.listing.length : Int) - 1)]) := by
  have hneg : ¬ (bnum < 0) := not_lt.mpr hpos
  constructor
  · rintro ⟨hne, hle⟩
    simp [wbcrun.UserProcess.Step, htok, harg, hneg, wbcrun.UserProcess.GetBehaviorList,
      List.isEmpty_iff, hne, hle]
  · rintro ⟨hemp, hstat, hle⟩
    refine ⟨?_, ?_, ?_, ?_⟩ <;>
      simp [wbcrun.UserProcess.Step, htok, harg, hneg, wbcrun.UserProcess.GetBehaviorList,
        wbcrun.DirectoryCmdClient.ListBehaviors, wbcrun.MyServiceTransaction.SendWaitReceive,
        hemp, hstat, hle, wbcrun.countEnqueuesOf, wbcrun.EnqueueMessage, wbcrun.SendWait,
        wbcrun.ReceiveWait]

/-- C7 witness: with the two behaviors already cached, `b 3` prints the error
and performs no channel operation, leaving the task spec unchanged. -/
theorem step_b_too_large_amended_witness :
    wbcrun.UserProcess.Step cachedUserState twoBehaviorOracle b3Input
      = { state := cachedUserState, acts := [],
          console := [wbcrun.ConsoleMsg.errorBehaviorTooLarge 3 1], ret := true } := by
  have h := (step_b_too_large_amended cachedUserState twoBehaviorOracle b3Input 3
    (by decide) (by decide) (by decide)).1 (by constructor <;> decide)
  simpa [cachedUserState, initialUserState] using h

/-- Each key pressed in interactive-key-press mode enqueues exactly one
request. -/
theorem countEnqueues_keyLoopActs (keys : List Nat) :
    wbcrun.countEnqueues (wbcrun.keyLoopActs keys) = keys.length := by
  induction keys with
  | nil => rfl
  | cons k rest ih =>
    simp only [wbcrun.keyLoopActs, wbcrun.countEnqueues, List.filter_append] at ih ⊢
    simp [ih, wbcrun.EnqueueMessage, wbcrun.SendWait, wbcrun.ReceiveWait]

/-- C8 counterexample: `r` is a recognized console command, yet its Step
branch enqueues no request at all — it performs SendWait and ReceiveWait with
an empty outgoing queue — refuting that every recognized command translates
into exactly one typed request. -/
theorem step_recognized_single_request_refuted :
    "r" ∈ wbcrun.recognizedTokens
    ∧ (wbcrun.UserProcess.Step cachedUserState twoBehaviorOracle rInput).acts
      = [wbcrun.Action.sendWait 10000, wbcrun.Action.receiveWait 10000 1]
    ∧ wbcrun.countEnqueues
        (wbcrun.UserProcess.Step cachedUserState twoBehaviorOracle rInput).acts = 0 := by
  decide

/-- C8 (amended): an unrecognized first token yields a syntax error and no
channel operation; the simple commands pos, endpos, vel, tau, float, activate
(and go, setgoal, setgains when their arguments parse) each translate into
exactly one typed request sent as enqueue/SendWait/ReceiveWait; but the
remaining recognized commands deviate: r sends and receives without enqueueing
anything, b? touches the channel only when the cache is empty, k enqueues one
request per key pressed, and xmlrpc performs no servo-channel operation. -/
theorem user_step_dispatch (st : wbcrun.UserState) (o : wbcrun.DirectoryOracle)
    (inp : wbcrun.ConsoleInput) :
    (¬ inp.tok ∈ wbcrun.recognizedTokens → inp.tok ≠ "" →
      wbcrun.UserProcess.Step st o inp
        = { state := st, acts := [],
            console := [wbcrun.ConsoleMsg.unknownCommand inp.tok], ret := true })
    ∧ (inp.tok = "pos" →
        wbcrun.UserProcess.Step st o inp = wbcrun.simpleRequest st wbcrun.ReqKind.getPos)
    ∧ (inp.tok = "endpos" →
        wbcrun.UserProcess.Step st o inp = wbcrun.simpleRequest st wbcrun.ReqKind.getEndPos)
    ∧ (inp.tok = "vel" →
        wbcrun.UserProcess.Step st o inp = wbcrun.simpleRequest st wbcrun.ReqKind.getVel)
    ∧ (inp.tok = "tau" →
        wbcrun.UserProcess.Step st o inp = wbcrun.simpleRequest st wbcrun.ReqKind.getTorques)
    ∧ (inp.tok = "float" →
        wbcrun.UserProcess.Step st o inp = wbcrun.simpleRequest st wbcrun.ReqKind.floatCmd)
    ∧ (inp.tok = "activate" →
        wbcrun.UserProcess.Step st o inp = wbcrun.simpleRequest st wbcrun.ReqKind.activateCmd)
    ∧ (inp.tok = "go" →
        (wbcrun.UserProcess.Step st o inp).acts
          = (wbcrun.simpleRequest st wbcrun.ReqKind.setGoal).acts)
    ∧ (inp.tok = "setgoal" → ∀ v, inp.setgoalArg = some v →
        wbcrun.UserProcess.Step st o inp = wbcrun.simpleRequest st wbcrun.ReqKind.setGoal)
    ∧ (inp.tok = "setgains" → ∀ v, inp.setgainsArg = some v →
        wbcrun.UserProcess.Step st o inp = wbcrun.simpleRequest st wbcrun.ReqKind.setGains)
    ∧ (inp.tok = "r" →
        (wbcrun.UserProcess.Step st o inp).acts
          = [wbcrun.Action.sendWait 10000, wbcrun.Action.receiveWait 10000 1]
        ∧ wbcrun.countEnqueues (wbcrun.UserProcess.Step st o inp).acts = 0)
    ∧ (inp.tok = "b?" → st.lazy_behavior_list ≠ [] →
        (wbcrun.UserProcess.Step st o inp).acts = [])
    ∧ (inp.tok = "k" →
        wbcrun.countEnqueues (wbcrun.UserProcess.Step st o inp).acts = inp.keys.length)
    ∧ (inp.tok = "xmlrpc" → (wbcrun.UserProcess.Step st o inp).acts = [])
    ∧ (∀ k, wbcrun.countEnqueues (wbcrun.simpleRequest st k).acts = 1) := by
  refine ⟨?_, ?_, ?_, ?_, ?_, ?_, ?_, ?_, ?_, ?_, ?_, ?_, ?_, ?_, ?_⟩
  · intro hmem hne
    simp only [wbcrun.recognizedTokens, List.mem_cons, List.not_mem_nil, or_false] at hmem
    push_neg at hmem
    obtain ⟨h1, h2, h3, h4, h5, h6, h7, h8, h9, h10, h11, h12, h13, h14, h15⟩ := hmem
    simp [wbcrun.UserProcess.Step, hne, h1, h2, h3, h4, h5, h6, h7, h8, h9, h10, h11,
      h12, h13, h14, h15]
  · intro h; simp [wbcrun.UserProcess.Step, h]
  · intro h; simp [wbcrun.UserProcess.Step, h]
  · intro h; simp [wbcrun.UserProcess.Step, h]
  · intro h; simp [wbcrun.UserProcess.Step, h]
  · intro h; simp [wbcrun.UserProcess.Step, h]
  · intro h; simp [wbcrun.UserProcess.Step, h]
  · intro h
    cases hg : inp.goInput <;>
      simp [wbcrun.UserProcess.Step, h, hg, wbcrun.simpleRequest]
  · intro h v hv; simp [wbcrun.UserProcess.Step, h, hv]
  · intro h v hv; simp [wbcrun.UserProcess.Step, h, hv]
  · intro h
    constructor <;>
      simp [wbcrun.UserProcess.Step, h, wbcrun.countEnqueues, wbcrun.SendWait,
        wbcrun.ReceiveWait]
  · intro h hne
    simp [wbcrun.UserProcess.Step, h, wbcrun.UserProcess.GetBehaviorList,
      List.isEmpty_iff, hne]
  · intro h
    simp [wbcrun.UserProcess.Step, h, countEnqueues_keyLoopActs]
  · intro h; simp [wbcrun.UserProcess.Step, h]
  · intro k
    simp [wbcrun.simpleRequest, wbcrun.countEnqueues, wbcrun.EnqueueMessage,
      wbcrun.SendWait, wbcrun.ReceiveWait]

/-- C8 witness: the command pos translates into exactly one typed request,
and the unknown token quit yields a syntax error without touching the
channel. -/
theorem user_step_dispatch_witness :
    wbcrun.UserProcess.Step cachedUserState twoBehaviorOracle posInput
      = wbcrun.simpleRequest cachedUserState wbcrun.ReqKind.getPos
    ∧ wbcrun.countEnqueues (wbcrun.simpleRequest cachedUserState wbcrun.ReqKind.getPos).acts = 1
    ∧ wbcrun.UserProcess.Step cachedUserState twoBehaviorOracle
        { posInput with tok := "quit" }
      = { state := cachedUserState, acts := [],
          console := [wbcrun.ConsoleMsg.unknownCommand "quit"], ret := true } := by
  refine ⟨(user_step_dispatch cachedUserState twoBehaviorOracle posInput).2.1 rfl,
    ?_, ?_⟩
  · exact (user_step_dispatch cachedUserState twoBehaviorOracle posInput).2.2.2.2.2.2.2.2.2.2.2.2.2.2 wbcrun.ReqKind.getPos
  · exact (user_step_dispatch cachedUserState twoBehaviorOracle
      { posInput with tok := "quit" }).1 (by decide) (by decide)

/-- C9: for every typed parameter, a set that fails — whether it lands in the
base-class overload for a mismatched value type (Status(false, "type
mismatch")) or is rejected by the registered checker — leaves the stored value
unchanged, while a set whose checker accepts returns the ok verdict and makes
the stored value equal to the argument. -/
theorem parameter_set_checked_update (p : opspace.Parameter)
    (checker : Option (opspace.PVal → opspace.PVal → opspace.Status))
    (v : opspace.PVal) :
    ((opspace.Parameter.set p checker v).2.ok = false →
      (opspace.Parameter.set p checker v).1 = p)
    ∧ (v.ptype ≠ p.type_ →
        opspace.Parameter.set p checker v = (p, { ok := false, errstr := "type mismatch" }))
    ∧ (v.ptype = p.type_ → (opspace.checkerVerdict p checker v).ok = true →
        (opspace.Parameter.set p checker v).2 = opspace.checkerVerdict p checker v
        ∧ (opspace.Parameter.set p checker v).1 = { p with value := v }) := by
  refine ⟨?_, ?_, ?_⟩
  · intro hfail
    by_cases ht : v.ptype = p.type_
    · by_cases hok : (opspace.checkerVerdict p checker v).ok
      · simp [opspace.Parameter.set, ht, hok] at hfail
      · simp [opspace.Parameter.set, ht, hok]
    · simp [opspace.Parameter.set, ht]
  · intro ht
    simp [opspace.Parameter.set, ht]
  · intro ht hok
    simp [opspace.Parameter.set, ht, hok]

/-- C9 witness: on the integer parameter kp, a rejected set and a mismatched
set leave the stored 3 in place, and an unchecked integer set stores 5 with an
ok status. -/
theorem parameter_set_checked_update_witness :
    ((opspace.Parameter.set kpParameter (some rejectAllChecker) (opspace.PVal.vInt 5)).2.ok
        = false
      ∧ (opspace.Parameter.set kpParameter (some rejectAllChecker) (opspace.PVal.vInt 5)).1
        = kpParameter)
    ∧ opspace.Parameter.set kpParameter none (opspace.PVal.vStr "x")
      = (kpParameter, { ok := false, errstr := "type mismatch" })
    ∧ ((opspace.Parameter.set kpParameter none (opspace.PVal.vInt 5)).2 = opspace.okStatus
      ∧ (opspace.Parameter.set kpParameter none (opspace.PVal.vInt 5)).1.value
        = opspace.PVal.vInt 5) := by
  refine ⟨⟨by decide, ?_⟩, ?_, ?_, ?_⟩
  · exact (parameter_set_checked_update kpParameter (some rejectAllChecker)
      (opspace.PVal.vInt 5)).1 (by decide)
  · exact (parameter_set_checked_update kpParameter none (opspace.PVal.vStr "x")).2.1
      (by decide)
  · exact ((parameter_set_checked_update kpParameter none (opspace.PVal.vInt 5)).2.2
      (by decide) (by decide)).1
  · have h := ((parameter_set_checked_update kpParameter none (opspace.PVal.vInt 5)).2.2
      (by decide) (by decide)).2
    simp [h]

/-- A find? that fails on the first list continues on the appended tail. -/
theorem find?_append_of_none {α : Type} (p : α → Bool) (l₁ l₂ : List α)
    (h : l₁.find? p = none) : (l₁ ++ l₂).find? p = l₂.find? p := by
  induction l₁ with
  | nil => rfl
  | cons a rest ih =>
    by_cases hp : p a
    · rw [List.find?_cons_of_pos rest hp] at h
      exact absurd h (by simp)
    · rw [List.find?_cons_of_neg rest hp] at h
      rw [List.cons_append, List.find?_cons_of_neg (rest ++ l₂) hp]
      exact ih h

/-- C10: declaring a second parameter under an already-registered name leaves
the registry untouched — std::map::insert does not replace — so
lookupParameter afterwards still returns the first-declared parameter. -/
theorem declare_parameter_first_wins (reg : opspace.parameter_lookup_t) (name : String)
    (t1 t2 : opspace.parameter_type_t) (v1 v2 : opspace.PVal)
    (h : opspace.ParameterReflection.lookupParameter reg name = none) :
    ((opspace.ParameterReflection.declareParameter
        (opspace.ParameterReflection.declareParameter reg name t1 v1).1 name t2 v2).1
      = (opspace.ParameterReflection.declareParameter reg name t1 v1).1)
    ∧ (opspace.ParameterReflection.lookupParameter
        (opspace.ParameterReflection.declareParameter
          (opspace.ParameterReflection.declareParameter reg name t1 v1).1 name t2 v2).1 name
      = some { name_ := name, type_ := t1, value := v1 }) := by
  have hfind : reg.find? (fun e => e.1 = name) = none := by
    unfold opspace.ParameterReflection.lookupParameter at h
    cases hc : reg.find? (fun e => e.1 = name) with
    | none => rfl
    | some e => rw [hc] at h; exact absurd h (by simp)
  have hlook1 :
      ((reg ++ [(name, ({ name_ := name, type_ := t1, value := v1 } : opspace.Parameter))]).find?
        (fun e => e.1 = name))
        = some (name, { name_ := name, type_ := t1, value := v1 }) := by
    rw [find?_append_of_none _ reg _ hfind]
    simp [List.find?_cons]
  constructor
  · simp [opspace.ParameterReflection.declareParameter, hfind, hlook1]
  · simp [opspace.ParameterReflection.declareParameter,
      opspace.ParameterReflection.lookupParameter, hfind, hlook1]

/-- C10 witness: declaring kp as an integer parameter and then again as a real
parameter in an empty registry keeps the registry at the first entry, and
lookup still returns the integer parameter. -/
theorem declare_parameter_first_wins_witness :
    ((opspace.ParameterReflection.declareParameter
        (opspace.ParameterReflection.declareParameter [] "kp"
          opspace.parameter_type_t.PARAMETER_TYPE_INTEGER (opspace.PVal.vInt 3)).1 "kp"
        opspace.parameter_type_t.PARAMETER_TYPE_REAL (opspace.PVal.vReal 1)).1
      = (opspace.ParameterReflection.declareParameter [] "kp"
          opspace.parameter_type_t.PARAMETER_TYPE_INTEGER (opspace.PVal.vInt 3)).1)
    ∧ (opspace.ParameterReflection.lookupParameter
        (opspace.ParameterReflection.declareParameter
          (opspace.ParameterReflection.declareParameter [] "kp"
            opspace.parameter_type_t.PARAMETER_TYPE_INTEGER (opspace.PVal.vInt 3)).1 "kp"
          opspace.parameter_type_t.PARAMETER_TYPE_REAL (opspace.PVal.vReal 1)).1 "kp"
      = some { name_ := "kp", type_ := opspace.parameter_type_t.PARAMETER_TYPE_INTEGER,
               value := opspace.PVal.vInt 3 }) :=
  declare_parameter_first_wins [] "kp" opspace.parameter_type_t.PARAMETER_TYPE_INTEGER
    opspace.parameter_type_t.PARAMETER_TYPE_REAL (opspace.PVal.vInt 3) (opspace.PVal.vReal 1)
    rfl
